import Mathlib

/-!
Shallow embedding of the content script of this repository (src/content.js):
the MemoryManager resource registry, the safeContentExecute timeout wrapper,
and the handleScrapingError relay with its global error listener.

Opaque JavaScript values (DOM elements, handler functions, observer objects,
timer ids, cleanup callbacks) are identity-based; they are modelled by Nat
identifiers.  JavaScript Map and Set are modelled by association lists and
duplicate-free lists in insertion order.  Observable side effects (calls into
the platform: attaching or removing a DOM listener, disconnecting an observer,
clearing a platform timer, invoking a callback, sending a runtime message,
writing to the console) are reified as an effect trace.  Exceptions thrown by
the tracked resources' own teardown operations are modelled by a teardown
environment of Boolean oracles saying which platform calls throw.
-/

set_option autoImplicit false

namespace ContentScript

/-- Insertion into a JavaScript Set: a no-op when the element is already
present, otherwise the element is appended in insertion order. -/
def setAdd (l : List Nat) (x : Nat) : List Nat :=
  if l.contains x then l else l ++ [x]

/-- Deletion from a JavaScript Set. -/
def setDelete (l : List Nat) (x : Nat) : List Nat :=
  l.filter (fun y => y != x)

/-- From src/content.js line 31: the compile-time debug flag. -/
def CONTENT_DEBUG : Bool := false

/-- From src/content.js line 41: the 30 second execution timeout. -/
def MAX_EXECUTION_TIME : Nat := 30000

/-- From src/content.js line 42. -/
def MAX_SELECTOR_ATTEMPTS : Nat := 10

/-- A listener-registration record, from the object literal built in
MemoryManager.addEventListener (src/content.js lines 65-71).  `handler` is the
bound handler actually attached; `originalHandler` is the caller-supplied one.
-/
structure ListenerInfo where
  event : String
  handler : Nat
  originalHandler : Nat
  options : Nat
  element : Nat
deriving Repr, DecidableEq

/-- The MemoryManager fields initialised by the constructor
(src/content.js lines 46-54).  `eventListeners` is the Map from element to
its Set of listener records; `references` is the WeakMap (never iterated). -/
structure MemoryManager where
  eventListeners : List (Nat × List ListenerInfo)
  timers : List Nat
  observers : List Nat
  intervals : List Nat
  timeouts : List Nat
  references : List (Nat × Nat)
  cleanupCallbacks : List Nat
deriving Repr, DecidableEq

/-- `new MemoryManager()` (src/content.js lines 46-54): every collection
starts empty. -/
def initialMemoryManager : MemoryManager :=
  { eventListeners := [], timers := [], observers := [], intervals := []
    timeouts := [], references := [], cleanupCallbacks := [] }

/-- Observable platform calls made by the registry. -/
inductive Effect where
  | attachedListener (element : Nat) (event : String) (handler : Nat) (options : Nat)
  | removedListener (element : Nat) (event : String) (handler : Nat) (options : Nat)
  | disconnected (observer : Nat)
  | clearedTimeout (id : Nat)
  | clearedInterval (id : Nat)
  | invokedCallback (cb : Nat)
  | warn (msg : String)
deriving Repr, DecidableEq

/-- Map lookup `this.eventListeners.get(element)`; `has` is `isSome` of this. -/
def lookupOwner (m : List (Nat × List ListenerInfo)) (element : Nat) :
    Option (List ListenerInfo) :=
  match m.find? (fun p => p.1 == element) with
  | some p => some p.2
  | none => none

/-- Map update `this.eventListeners.set(element, l)` for a key already
present: replaces the value, keeping insertion order. -/
def setOwner (m : List (Nat × List ListenerInfo)) (element : Nat)
    (l : List ListenerInfo) : List (Nat × List ListenerInfo) :=
  m.map (fun p => if p.1 == element then (p.1, l) else p)

/-- Map removal `this.eventListeners.delete(element)`. -/
def removeOwner (m : List (Nat × List ListenerInfo)) (element : Nat) :
    List (Nat × List ListenerInfo) :=
  m.filter (fun p => p.1 != element)

/-- MemoryManager.addEventListener (src/content.js lines 56-79).  `bound` is
the fresh function object produced by `handler.bind(this)`; it is returned so
the caller can later request removal.  The record is appended to the owner's
Set (each registration call builds a fresh record object, so Set.add always
appends), and the listener is attached to the element immediately. -/
def MemoryManager.addEventListener (st : MemoryManager) (element : Nat)
    (event : String) (handler : Nat) (options : Nat) (bound : Nat) :
    Nat × MemoryManager × List Effect :=
  let info : ListenerInfo :=
    { event := event, handler := bound, originalHandler := handler
      options := options, element := element }
  let m := match lookupOwner st.eventListeners element with
    | none => st.eventListeners ++ [(element, [info])]
    | some l => setOwner st.eventListeners element (l ++ [info])
  (bound, { st with eventListeners := m },
    [Effect.attachedListener element event bound options])

/-- The predicate used by the `find` in MemoryManager.removeEventListener
(src/content.js lines 85-87): event-kind matches and the supplied handler is
the bound or the original one. -/
def matchesListener (event : String) (handler : Nat) (l : ListenerInfo) : Bool :=
  l.event == event && (l.handler == handler || l.originalHandler == handler)

/-- MemoryManager.removeEventListener (src/content.js lines 81-97): an owner
with no entry, or no matching record, is a silent no-op; otherwise the first
matching record is detached from the element and deleted, and the owner's key
is deleted when its Set becomes empty. -/
def MemoryManager.removeEventListener (st : MemoryManager) (element : Nat)
    (event : String) (handler : Nat) : MemoryManager × List Effect :=
  match lookupOwner st.eventListeners element with
  | none => (st, [])
  | some listeners =>
    match listeners.find? (matchesListener event handler) with
    | none => (st, [])
    | some r =>
      let listeners' := listeners.eraseP (matchesListener event handler)
      let m := if listeners'.isEmpty
        then removeOwner st.eventListeners element
        else setOwner st.eventListeners element listeners'
      ({ st with eventListeners := m },
        [Effect.removedListener element event r.handler r.options])

/-- MemoryManager.createObserver (src/content.js lines 99-103): `observer` is
the fresh object `new observerClass(callback, options)`; it is tracked and
returned. -/
def MemoryManager.createObserver (st : MemoryManager) (observer : Nat) :
    Nat × MemoryManager :=
  (observer, { st with observers := setAdd st.observers observer })

/-- MemoryManager.setTimeout (src/content.js lines 105-112): `id` is the fresh
platform timer id; the wrapped callback scheduled is
`() => { this.timeouts.delete(id); callback(); }` and the id is tracked. -/
def MemoryManager.setTimeout (st : MemoryManager) (id : Nat) :
    Nat × MemoryManager :=
  (id, { st with timeouts := setAdd st.timeouts id })

/-- The wrapped callback of MemoryManager.setTimeout firing (src/content.js
lines 106-109): the id is deleted from tracking, then the user callback runs
(the user callback is opaque and does not touch the registry). -/
def timeoutFired (st : MemoryManager) (id : Nat) : MemoryManager :=
  { st with timeouts := setDelete st.timeouts id }

/-- MemoryManager.setInterval (src/content.js lines 114-118): the raw user
callback is scheduled unwrapped and the fresh platform id is tracked. -/
def MemoryManager.setInterval (st : MemoryManager) (id : Nat) :
    Nat × MemoryManager :=
  (id, { st with intervals := setAdd st.intervals id })

/-- A tick of an interval scheduled by MemoryManager.setInterval: the
scheduled callback is the raw user callback (src/content.js line 115), so the
registry state is untouched. -/
def intervalFired (st : MemoryManager) (_id : Nat) : MemoryManager := st

/-- MemoryManager.clearTimeout (src/content.js lines 120-125): only a tracked
id reaches the platform clearTimeout and is untracked. -/
def MemoryManager.clearTimeout (st : MemoryManager) (id : Nat) :
    MemoryManager × List Effect :=
  if st.timeouts.contains id then
    ({ st with timeouts := setDelete st.timeouts id }, [Effect.clearedTimeout id])
  else (st, [])

/-- MemoryManager.clearInterval (src/content.js lines 127-132): only a tracked
id reaches the platform clearInterval and is untracked. -/
def MemoryManager.clearInterval (st : MemoryManager) (id : Nat) :
    MemoryManager × List Effect :=
  if st.intervals.contains id then
    ({ st with intervals := setDelete st.intervals id }, [Effect.clearedInterval id])
  else (st, [])

/-- MemoryManager.addCleanupCallback (src/content.js lines 134-136). -/
def MemoryManager.addCleanupCallback (st : MemoryManager) (cb : Nat) :
    MemoryManager :=
  { st with cleanupCallbacks := setAdd st.cleanupCallbacks cb }

/-- MemoryManager.removeCleanupCallback (src/content.js lines 138-140). -/
def MemoryManager.removeCleanupCallback (st : MemoryManager) (cb : Nat) :
    MemoryManager :=
  { st with cleanupCallbacks := setDelete st.cleanupCallbacks cb }

/-- Which platform teardown calls throw: the environment of opaque resources
against which MemoryManager.cleanupAll runs. -/
structure TeardownEnv where
  removeListenerThrows : Nat → String → Nat → Bool
  disconnectThrows : Nat → Bool
  clearTimeoutThrows : Nat → Bool
  clearIntervalThrows : Nat → Bool
  callbackThrows : Nat → Bool

/-- One iteration of the listener loop of cleanupAll (src/content.js lines
144-152): try to remove the listener from its element; a throw is caught and
logged as a warning. -/
def cleanupListenerStep (env : TeardownEnv) (element : Nat) (l : ListenerInfo) :
    Effect :=
  if env.removeListenerThrows element l.event l.handler then
    Effect.warn "Error removing event listener:"
  else Effect.removedListener element l.event l.handler l.options

/-- One iteration of the observer loop of cleanupAll (src/content.js lines
156-162). -/
def cleanupObserverStep (env : TeardownEnv) (observer : Nat) : Effect :=
  if env.disconnectThrows observer then Effect.warn "Error disconnecting observer:"
  else Effect.disconnected observer

/-- One iteration of the timeout loop of cleanupAll (src/content.js lines
166-172). -/
def cleanupTimeoutStep (env : TeardownEnv) (id : Nat) : Effect :=
  if env.clearTimeoutThrows id then Effect.warn "Error clearing timeout:"
  else Effect.clearedTimeout id

/-- One iteration of the interval loop of cleanupAll (src/content.js lines
175-181). -/
def cleanupIntervalStep (env : TeardownEnv) (id : Nat) : Effect :=
  if env.clearIntervalThrows id then Effect.warn "Error clearing interval:"
  else Effect.clearedInterval id

/-- One iteration of the cleanup-callback loop of cleanupAll (src/content.js
lines 185-191). -/
def cleanupCallbackStep (env : TeardownEnv) (cb : Nat) : Effect :=
  if env.callbackThrows cb then Effect.warn "Error in cleanup callback:"
  else Effect.invokedCallback cb

/-- MemoryManager.cleanupAll (src/content.js lines 142-195): the five loops in
their source order — listeners, observers, timeouts, intervals, cleanup
callbacks — each followed by an unconditional `.clear()` of its collection;
each item's teardown is wrapped in its own try/catch.  The `timers` Set and
the `references` WeakMap are not touched. -/
def MemoryManager.cleanupAll (env : TeardownEnv) (st : MemoryManager) :
    MemoryManager × List Effect :=
  let listenerTrace :=
    (st.eventListeners.map (fun p => p.2.map (cleanupListenerStep env p.1))).flatten
  let observerTrace := st.observers.map (cleanupObserverStep env)
  let timeoutTrace := st.timeouts.map (cleanupTimeoutStep env)
  let intervalTrace := st.intervals.map (cleanupIntervalStep env)
  let callbackTrace := st.cleanupCallbacks.map (cleanupCallbackStep env)
  ({ st with eventListeners := [], observers := [], timeouts := []
             intervals := [], cleanupCallbacks := [] },
    listenerTrace ++ observerTrace ++ timeoutTrace ++ intervalTrace ++ callbackTrace)

/-- The counts object returned by MemoryManager.getMemoryUsage. -/
structure MemoryUsage where
  eventListeners : Nat
  observers : Nat
  timeouts : Nat
  intervals : Nat
  cleanupCallbacks : Nat
deriving Repr, DecidableEq

/-- MemoryManager.getMemoryUsage (src/content.js lines 197-205): the `.size`
of each of the five reported collections.  It only reads the collections. -/
def MemoryManager.getMemoryUsage (st : MemoryManager) : MemoryUsage :=
  { eventListeners := st.eventListeners.length
    observers := st.observers.length
    timeouts := st.timeouts.length
    intervals := st.intervals.length
    cleanupCallbacks := st.cleanupCallbacks.length }

/-- The structured message object built by handleScrapingError
(src/content.js lines 4-9). -/
structure ErrorReport where
  action : String
  error : String
  timestamp : Nat
  url : String
deriving Repr, DecidableEq

/-- Observable effects of the error relay. -/
inductive RelayEffect where
  | sent (report : ErrorReport)
  | consoleError (msg : String)
deriving Repr, DecidableEq

/-- The platform call chrome.runtime.sendMessage as seen from this context:
either the message is delivered, or the call throws (for example when the
background coordinator is unreachable); `sendFails` is that environment
condition.  On success the delivered report is the observable effect. -/
def chromeSendMessage (sendFails : Bool) (report : ErrorReport) :
    Except String (List RelayEffect) :=
  if sendFails then Except.error "Extension context invalidated"
  else Except.ok [RelayEffect.sent report]

/-- handleScrapingError (src/content.js lines 2-13): builds the report with
the fixed `contentScriptError` action tag, the message, `Date.now()` (`now`)
and `window.location.href` (`href`), sends it, and catches any send failure,
logging it with console.error instead of re-throwing. -/
def handleScrapingError (sendFails : Bool) (now : Nat) (href : String)
    (message : String) : Except String (List RelayEffect) :=
  match chromeSendMessage sendFails
      { action := "contentScriptError", error := message
        timestamp := now, url := href } with
  | Except.ok effs => Except.ok effs
  | Except.error e =>
    Except.ok [RelayEffect.consoleError ("Failed to send error to background: " ++ e)]

/-- The value of the `error` property of a browser ErrorEvent: either an
Error object carrying a message, or null/undefined (as delivered for
cross-origin script errors). -/
structure JsError where
  message : String
deriving Repr, DecidableEq

/-- The global window error listener (src/content.js lines 16-19): it first
calls the debug-gated `log` (passing event.error without dereferencing it),
then evaluates the template literal, which reads `event.error.message`
unconditionally; when `event.error` is null or undefined that property read
throws a TypeError before handleScrapingError is ever called. -/
def windowOnError (sendFails : Bool) (now : Nat) (href : String)
    (error : Option JsError) : Except String (List RelayEffect) :=
  match error with
  | none =>
    Except.error "TypeError: cannot read property message of null"
  | some e => handleScrapingError sendFails now href ("Global error: " ++ e.message)

/-- The settlement behaviour of the promise returned by `fn(...args)` inside
safeContentExecute: either it settles at a wall-clock offset (milliseconds
from the start) with a fulfillment or a rejection, or it never settles. -/
inductive ExecResult (α : Type) where
  | ok : α → ExecResult α
  | err : String → ExecResult α
deriving Repr, DecidableEq

/-- Calls made to the debug-gated logger `log` (src/content.js lines 34-38)
by the wrapper: the diagnostic notes it records. -/
inductive ExecEffect where
  | diagnostic (msg : String)
deriving Repr, DecidableEq

/-- safeContentExecute (src/content.js lines 217-240): the wrapped call races
`fn(...args)` against a timer that rejects with `Error('Execution timeout')`
after MAX_EXECUTION_TIME ms.  `op = some (t, r)` means the operation settles
with `r` at `t` ms; `none` means it never settles.  The operation wins the
race exactly when it settles strictly before the timer fires.  On a win with
a fulfillment, a slow-execution note is logged when the measured duration
exceeds 5000 ms and the value is returned; any rejection reaching the catch
block is logged and re-thrown unchanged. -/
def safeContentExecute {α : Type} (context : String)
    (op : Option (Nat × ExecResult α)) : ExecResult α × List ExecEffect :=
  match op with
  | none =>
    (ExecResult.err "Execution timeout",
      [ExecEffect.diagnostic ("Error in " ++ context ++ ":")])
  | some (t, r) =>
    if t < MAX_EXECUTION_TIME then
      match r with
      | ExecResult.ok a =>
        if 5000 < t then
          (ExecResult.ok a,
            [ExecEffect.diagnostic
              ("Slow execution in " ++ context ++ ": " ++ toString t ++ "ms")])
        else (ExecResult.ok a, [])
      | ExecResult.err e =>
        (ExecResult.err e, [ExecEffect.diagnostic ("Error in " ++ context ++ ":")])
    else
      (ExecResult.err "Execution timeout",
        [ExecEffect.diagnostic ("Error in " ++ context ++ ":")])

/-- One call in a registration/removal history against the registry. -/
inductive RegOp where
  | register (element : Nat) (event : String) (handler : Nat) (options : Nat) (bound : Nat)
  | unregister (element : Nat) (event : String) (handler : Nat)
deriving Repr, DecidableEq

/-- The registry-state part of applying one call. -/
def applyOp (st : MemoryManager) (op : RegOp) : MemoryManager :=
  match op with
  | RegOp.register e ev h o b => (st.addEventListener e ev h o b).2.1
  | RegOp.unregister e ev h => (st.removeEventListener e ev h).1

/-- Running a history of registration/removal calls from a fresh manager. -/
def runOps (ops : List RegOp) : MemoryManager :=
  ops.foldl applyOp initialMemoryManager

/-- The records currently tracked for an owner (empty when the owner has no
entry in the Map). -/
def listenersOf (st : MemoryManager) (element : Nat) : List ListenerInfo :=
  (lookupOwner st.eventListeners element).getD []

/-- Invariant of the eventListeners Map: no owner is keyed to an empty Set
(removeEventListener deletes the key when the last record goes). -/
def NoEmptyEntries (st : MemoryManager) : Prop :=
  ∀ p ∈ st.eventListeners, p.2 ≠ []

/-- A teardown environment in which no platform call throws. -/
def benignEnv : TeardownEnv :=
  { removeListenerThrows := fun _ _ _ => false
    disconnectThrows := fun _ => false
    clearTimeoutThrows := fun _ => false
    clearIntervalThrows := fun _ => false
    callbackThrows := fun _ => false }

/-- The diagnostic scenario of the spec: 3 listeners on 2 distinct owners,
1 observer, 2 one-shot timers, 1 repeating timer, 1 cleanup callback. -/
def usageScenario : MemoryManager :=
  let s1 := (initialMemoryManager.addEventListener 1 "click" 10 0 100).2.1
  let s2 := (s1.addEventListener 1 "scroll" 11 0 101).2.1
  let s3 := (s2.addEventListener 2 "click" 12 0 102).2.1
  let s4 := (s3.createObserver 50).2
  let s5 := (s4.setTimeout 60).2
  let s6 := (s5.setTimeout 61).2
  let s7 := (s6.setInterval 70).2
  s7.addCleanupCallback 80

end ContentScript

namespace ContentScript

/-! ### Helper lemmas -/

theorem contains_setAdd_self (l : List Nat) (x : Nat) :
    (setAdd l x).contains x = true := by
  unfold setAdd
  cases h : l.contains x with
  | true => simpa using h
  | false => simp

theorem contains_setDelete (l : List Nat) (x : Nat) :
    (setDelete l x).contains x = false := by
  unfold setDelete
  rw [List.contains_eq_any_beq]
  simp only [List.any_filter]
  rw [List.any_eq_false]
  intro a _
  cases h : x == a with
  | false => simp [h]
  | true =>
    have : x = a := by simpa using h
    subst this
    simp

theorem lookupOwner_mem (m : List (Nat × List ListenerInfo)) (e : Nat)
    (l : List ListenerInfo) (h : lookupOwner m e = some l) : ∃ p ∈ m, p.2 = l := by
  unfold lookupOwner at h
  cases hf : m.find? (fun p => p.1 == e) with
  | none => rw [hf] at h; cases h
  | some q =>
    rw [hf] at h
    cases h
    exact ⟨q, List.mem_of_find?_eq_some hf, rfl⟩

theorem find?_middle {α : Type} (p : α → Bool) (l1 l2 : List α) (r : α)
    (h1 : ∀ x ∈ l1, ¬ p x) (hr : p r = true) :
    (l1 ++ r :: l2).find? p = some r := by
  rw [List.find?_append, List.find?_eq_none.mpr h1, List.find?_cons_of_pos _ hr]
  rfl

theorem eraseP_middle {α : Type} (p : α → Bool) (l1 l2 : List α) (r : α)
    (h1 : ∀ x ∈ l1, ¬ p x) (hr : p r = true) :
    (l1 ++ r :: l2).eraseP p = l1 ++ l2 := by
  rw [List.eraseP_append_right _ h1, List.eraseP_cons_of_pos hr]

theorem noEmptyEntries_applyOp (st : MemoryManager) (op : RegOp)
    (h : NoEmptyEntries st) : NoEmptyEntries (applyOp st op) := by
  cases op with
  | register e ev hd o b =>
    intro p hp
    simp only [applyOp, MemoryManager.addEventListener] at hp
    cases hl : lookupOwner st.eventListeners e with
    | none =>
      rw [hl] at hp
      simp only [List.mem_append, List.mem_singleton] at hp
      rcases hp with hp | hp
      · exact h p hp
      · subst hp; simp
    | some l =>
      rw [hl] at hp
      simp only [setOwner, List.mem_map] at hp
      obtain ⟨q, hq, hif⟩ := hp
      by_cases hqe : (q.1 == e) = true
      · rw [if_pos hqe] at hif
        rw [← hif]
        simp
      · rw [if_neg hqe] at hif
        rw [← hif]
        exact h q hq
  | unregister e ev hd =>
    intro p hp
    simp only [applyOp, MemoryManager.removeEventListener] at hp
    split at hp
    · exact h p hp
    · split at hp
      · exact h p hp
      · dsimp only at hp
        split at hp
        · simp only [removeOwner, List.mem_filter] at hp
          exact h p hp.1
        · next he =>
          simp only [setOwner, List.mem_map] at hp
          obtain ⟨q, hq, hif⟩ := hp
          by_cases hqe : (q.1 == e) = true
          · rw [if_pos hqe] at hif
            rw [← hif]
            simp only [ne_eq, List.isEmpty_iff] at he ⊢
            exact he
          · rw [if_neg hqe] at hif
            rw [← hif]
            exact h q hq

theorem noEmptyEntries_foldl (ops : List RegOp) (st : MemoryManager)
    (h : NoEmptyEntries st) : NoEmptyEntries (ops.foldl applyOp st) := by
  induction ops generalizing st with
  | nil => exact h
  | cons op rest ih => exact ih _ (noEmptyEntries_applyOp st op h)

theorem noEmptyEntries_runOps (ops : List RegOp) : NoEmptyEntries (runOps ops) :=
  noEmptyEntries_foldl ops initialMemoryManager (by intro p hp; cases hp)

end ContentScript

namespace ContentScript

/-! ### Claim theorems -/

/-- Claim C1: cleanupAll tears resources down in the fixed order — tracked
listeners, then observers, then one-shot timeouts, then intervals, then
cleanup callbacks — producing exactly one platform action or caught-warning
per tracked item whatever the teardown environment throws (so one item's
failure never aborts the rest of its phase nor later phases), and afterwards
all five tracked collections are empty. -/
theorem cleanupAll_order_total_effort (env : TeardownEnv) (st : MemoryManager) :
    ((MemoryManager.cleanupAll env st).1.eventListeners = [] ∧
     (MemoryManager.cleanupAll env st).1.observers = [] ∧
     (MemoryManager.cleanupAll env st).1.timeouts = [] ∧
     (MemoryManager.cleanupAll env st).1.intervals = [] ∧
     (MemoryManager.cleanupAll env st).1.cleanupCallbacks = []) ∧
    (MemoryManager.cleanupAll env st).2 =
      (st.eventListeners.map (fun p => p.2.map (cleanupListenerStep env p.1))).flatten
        ++ st.observers.map (cleanupObserverStep env)
        ++ st.timeouts.map (cleanupTimeoutStep env)
        ++ st.intervals.map (cleanupIntervalStep env)
        ++ st.cleanupCallbacks.map (cleanupCallbackStep env) ∧
    ((MemoryManager.cleanupAll env st).2).length =
      (st.eventListeners.map (fun p => p.2.length)).sum + st.observers.length
        + st.timeouts.length + st.intervals.length + st.cleanupCallbacks.length := by
  refine ⟨⟨rfl, rfl, rfl, rfl, rfl⟩, rfl, ?_⟩
  simp only [MemoryManager.cleanupAll, List.length_append, List.length_flatten,
    List.map_map, List.length_map]
  congr 4
  have hcomp :
      (List.length ∘ fun p : Nat × List ListenerInfo =>
        List.map (cleanupListenerStep env p.1) p.2) =
      fun p : Nat × List ListenerInfo => p.2.length := by
    funext p
    simp
  rw [hcomp]

/-- Claim C2: cleanupAll is idempotent: the first call empties every tracked
collection regardless of which teardown operations threw, and an immediate
second call (under any environment) performs no platform action and leaves
the already-empty state unchanged. -/
theorem cleanupAll_idempotent (env env' : TeardownEnv) (st : MemoryManager) :
    ((MemoryManager.cleanupAll env st).1.eventListeners = [] ∧
     (MemoryManager.cleanupAll env st).1.observers = [] ∧
     (MemoryManager.cleanupAll env st).1.timeouts = [] ∧
     (MemoryManager.cleanupAll env st).1.intervals = [] ∧
     (MemoryManager.cleanupAll env st).1.cleanupCallbacks = []) ∧
    MemoryManager.cleanupAll env' (MemoryManager.cleanupAll env st).1 =
      ((MemoryManager.cleanupAll env st).1, []) :=
  ⟨⟨rfl, rfl, rfl, rfl, rfl⟩, rfl⟩

/-- Claim C3: the wrapped call of safeContentExecute is a race against the
MAX_EXECUTION_TIME timer: an operation settling strictly first has its
fulfillment or rejection propagated unchanged; if the timer fires first (the
operation settles later, or never) the call fails with the Execution timeout
error; a success slower than 5000 ms is still returned normally, with a slow
execution diagnostic recorded. -/
theorem safeContentExecute_race {α : Type} (context : String) (t : Nat)
    (r : ExecResult α) :
    (t < MAX_EXECUTION_TIME → (safeContentExecute context (some (t, r))).1 = r) ∧
    (MAX_EXECUTION_TIME < t →
      (safeContentExecute context (some (t, r))).1 =
        ExecResult.err "Execution timeout") ∧
    ((safeContentExecute context (none : Option (Nat × ExecResult α))).1 =
      ExecResult.err "Execution timeout") ∧
    (∀ a : α, r = ExecResult.ok a → t < MAX_EXECUTION_TIME → 5000 < t →
      safeContentExecute context (some (t, r)) =
        (ExecResult.ok a,
          [ExecEffect.diagnostic
            ("Slow execution in " ++ context ++ ": " ++ toString t ++ "ms")])) := by
  refine ⟨?_, ?_, rfl, ?_⟩
  · intro h
    cases r with
    | ok a =>
      by_cases h5 : 5000 < t <;> simp [safeContentExecute, h, h5]
    | err e => simp [safeContentExecute, h]
  · intro h
    have h' : ¬ t < MAX_EXECUTION_TIME := by omega
    simp [safeContentExecute, h']
  · intro a hr h h5
    subst hr
    simp [safeContentExecute, h, h5]

/-- Witness for C3: a slow success (6 s) is returned unchanged with the slow
diagnostic, and an operation settling only after the 30 s bound times out. -/
theorem safeContentExecute_race_witness :
    safeContentExecute "test" (some (6000, ExecResult.ok (7 : Nat))) =
      (ExecResult.ok 7,
        [ExecEffect.diagnostic
          ("Slow execution in " ++ "test" ++ ": " ++ toString 6000 ++ "ms")]) ∧
    (safeContentExecute "test" (some (40000, ExecResult.ok (7 : Nat)))).1 =
      ExecResult.err "Execution timeout" :=
  ⟨(safeContentExecute_race "test" 6000 (ExecResult.ok 7)).2.2.2 7 rfl (by decide)
      (by decide),
   (safeContentExecute_race "test" 40000 (ExecResult.ok 7)).2.1 (by decide)⟩

/-- Claim C4: in any history of addEventListener / removeEventListener calls
after which no listener record remains for an owner, the owner has no key in
the eventListeners Map: no residual empty Set is left keyed by it. -/
theorem unregisterAll_removes_owner_key (ops : List RegOp) (owner : Nat)
    (h : listenersOf (runOps ops) owner = []) :
    lookupOwner (runOps ops).eventListeners owner = none := by
  cases hl : lookupOwner (runOps ops).eventListeners owner with
  | none => rfl
  | some l =>
    unfold listenersOf at h
    rw [hl] at h
    simp only [Option.getD_some] at h
    subst h
    obtain ⟨p, hp, hp2⟩ := lookupOwner_mem _ owner [] hl
    exact absurd hp2 (noEmptyEntries_runOps ops p hp)

/-- Witness for C4: one registration followed by its removal leaves the owner
with no key at all. -/
theorem unregisterAll_removes_owner_key_witness :
    listenersOf (runOps [RegOp.register 1 "click" 10 0 100,
      RegOp.unregister 1 "click" 10]) 1 = [] ∧
    lookupOwner (runOps [RegOp.register 1 "click" 10 0 100,
      RegOp.unregister 1 "click" 10]).eventListeners 1 = none :=
  ⟨rfl, unregisterAll_removes_owner_key
    [RegOp.register 1 "click" 10 0 100, RegOp.unregister 1 "click" 10] 1 rfl⟩

/-- Claim C5: the wrapped callback of a one-shot timer deletes the handle
from the tracked timeouts the instant it fires, while an interval handle
stays tracked across ticks and disappears only on explicit clearInterval. -/
theorem oneshot_autoremove_interval_persists (st : MemoryManager) (id : Nat) :
    ((timeoutFired (st.setTimeout id).2 id).timeouts.contains id = false) ∧
    ((st.setInterval id).2.intervals.contains id = true) ∧
    (intervalFired (st.setInterval id).2 id = (st.setInterval id).2) ∧
    (((st.setInterval id).2.clearInterval id).1.intervals.contains id = false) := by
  refine ⟨?_, ?_, rfl, ?_⟩
  · exact contains_setDelete _ id
  · exact contains_setAdd_self _ id
  · simp only [MemoryManager.clearInterval, MemoryManager.setInterval,
      contains_setAdd_self, if_true]
    exact contains_setDelete _ id

/-- Claim C6: removeEventListener is exact: with no entry for the owner, or
no record matching the event kind and the supplied (bound or original)
handler, it is a silent no-op leaving the state unchanged; with a unique
matching record it detaches exactly that record from the owner and deletes
it (dropping the owner's key if that was the last record). -/
theorem removeEventListener_exact (st : MemoryManager) (element : Nat)
    (event : String) (handler : Nat) :
    (lookupOwner st.eventListeners element = none →
      st.removeEventListener element event handler = (st, [])) ∧
    (∀ l, lookupOwner st.eventListeners element = some l →
      l.all (fun x => !matchesListener event handler x) = true →
      st.removeEventListener element event handler = (st, [])) ∧
    (∀ l1 r l2, lookupOwner st.eventListeners element = some (l1 ++ r :: l2) →
      matchesListener event handler r = true →
      (l1 ++ l2).all (fun x => !matchesListener event handler x) = true →
      st.removeEventListener element event handler =
        ({ st with eventListeners :=
            if (l1 ++ l2).isEmpty
            then removeOwner st.eventListeners element
            else setOwner st.eventListeners element (l1 ++ l2) },
          [Effect.removedListener element event r.handler r.options])) := by
  refine ⟨?_, ?_, ?_⟩
  · intro h
    simp [MemoryManager.removeEventListener, h]
  · intro l hl hall
    have hnone : l.find? (matchesListener event handler) = none := by
      rw [List.find?_eq_none]
      intro x hx
      have := List.all_eq_true.mp hall x hx
      simpa using this
    simp [MemoryManager.removeEventListener, hl, hnone]
  · intro l1 r l2 hl hr hall
    rw [List.all_append] at hall
    have h1 : ∀ x ∈ l1, ¬ matchesListener event handler x = true := by
      intro x hx
      have := List.all_eq_true.mp (Bool.and_elim_left hall) x hx
      simpa using this
    have hf := find?_middle (matchesListener event handler) l1 l2 r h1 hr
    have he := eraseP_middle (matchesListener event handler) l1 l2 r h1 hr
    simp only [MemoryManager.removeEventListener, hl, hf, he]

/-- Witness for C6: removing the only registered listener by its original
handler detaches it with the bound handler and drops the owner's key; both
no-op cases are exercised on the same state. -/
theorem removeEventListener_exact_witness :
    ((initialMemoryManager.addEventListener 1 "click" 10 0 100).2.1).removeEventListener
        1 "click" 10 =
      ({ initialMemoryManager with eventListeners := [] },
        [Effect.removedListener 1 "click" 100 0]) ∧
    ((initialMemoryManager.addEventListener 1 "click" 10 0 100).2.1).removeEventListener
        2 "click" 10 =
      ((initialMemoryManager.addEventListener 1 "click" 10 0 100).2.1, []) ∧
    ((initialMemoryManager.addEventListener 1 "click" 10 0 100).2.1).removeEventListener
        1 "scroll" 10 =
      ((initialMemoryManager.addEventListener 1 "click" 10 0 100).2.1, []) := by
  refine ⟨?_, ?_, ?_⟩
  · exact (removeEventListener_exact
      (initialMemoryManager.addEventListener 1 "click" 10 0 100).2.1 1 "click" 10).2.2
      [] { event := "click", handler := 100, originalHandler := 10, options := 0,
           element := 1 } [] rfl (by decide) rfl
  · exact (removeEventListener_exact
      (initialMemoryManager.addEventListener 1 "click" 10 0 100).2.1 2 "click" 10).1 rfl
  · exact (removeEventListener_exact
      (initialMemoryManager.addEventListener 1 "click" 10 0 100).2.1 1 "scroll" 10).2.1
      [{ event := "click", handler := 100, originalHandler := 10, options := 0,
         element := 1 }] rfl (by decide)

/-- Claim C7: getMemoryUsage reports the cardinality of each tracked
collection (it is a pure reader of the registry state): on the spec's
scenario — 3 listeners on 2 distinct owners, 1 observer, 2 one-shot timers,
1 repeating timer, 1 cleanup callback — it reports 2/1/2/1/1, and after
cleanupAll it reports all zeros. -/
theorem getMemoryUsage_counts :
    usageScenario.getMemoryUsage =
      { eventListeners := 2, observers := 1, timeouts := 2, intervals := 1
        cleanupCallbacks := 1 } ∧
    (MemoryManager.cleanupAll benignEnv usageScenario).1.getMemoryUsage =
      { eventListeners := 0, observers := 0, timeouts := 0, intervals := 0
        cleanupCallbacks := 0 } :=
  ⟨rfl, rfl⟩

/-- Claim C8: every report handed to the coordinator by handleScrapingError
carries the contentScriptError discriminator tag, the message, the
millisecond timestamp and the page URL; and a throwing send is caught and
logged via console.error, with the function returning normally. -/
theorem handleScrapingError_report (now : Nat) (href msg : String) :
    handleScrapingError false now href msg =
      Except.ok [RelayEffect.sent
        { action := "contentScriptError", error := msg, timestamp := now
          url := href }] ∧
    handleScrapingError true now href msg =
      Except.ok [RelayEffect.consoleError
        ("Failed to send error to background: " ++ "Extension context invalidated")] :=
  ⟨rfl, rfl⟩

/-- Claim C9: clearing a handle that is not tracked (never created here, or a
one-shot that already fired and was auto-removed) is a complete no-op: the
platform clear call is never made and every collection is left unchanged. -/
theorem clear_untracked_noop (st : MemoryManager) (id : Nat) :
    (st.timeouts.contains id = false →
      st.clearTimeout id = (st, [])) ∧
    (st.intervals.contains id = false →
      st.clearInterval id = (st, [])) := by
  constructor
  · intro h
    unfold MemoryManager.clearTimeout
    rw [h]
    simp
  · intro h
    unfold MemoryManager.clearInterval
    rw [h]
    simp

/-- Witness for C9: clearing unknown handle 5 on a fresh manager touches
nothing, for both timer kinds. -/
theorem clear_untracked_noop_witness :
    initialMemoryManager.clearTimeout 5 = (initialMemoryManager, []) ∧
    initialMemoryManager.clearInterval 5 = (initialMemoryManager, []) :=
  ⟨(clear_untracked_noop initialMemoryManager 5).1 rfl,
   (clear_untracked_noop initialMemoryManager 5).2 rfl⟩

/-- Claim C10: the global error listener reads event.error.message without a
null check, so an error event whose error field is null or undefined makes
the listener itself throw a TypeError and no report reaches the relay. -/
theorem windowOnError_null_throws (sendFails : Bool) (now : Nat) (href : String) :
    windowOnError sendFails now href none =
      Except.error "TypeError: cannot read property message of null" :=
  rfl

end ContentScript
